import Mathlib

/-!
Verification of the VPN control daemon (`vpn_handler`): a shallow embedding
of its Config Selector, Process Supervisor (`Handler`), Status Notifier
Client (`Notifier`), Log Writer (`Logger`), Runner loop, and Control Daemon
accept loop, together with proofs about the behaviour the specification
claims for them.

External effects (the RNG draw, OS process spawn/kill, socket writes,
socket reconnects) are modelled by oracle functions indexed by the attempt
number, so every definition mirrors the Rust control flow exactly while
remaining executable.  A Rust computation that can panic, return `Err`, or
return `Ok` is embedded in the `Outcome` type.
-/

namespace VpnHandler

/-- Subset of `std::io::ErrorKind` used by the daemon. -/
inductive ErrorKind
  | alreadyExists
  | notFound
  | unexpectedEof
  | brokenPipe
  | other
deriving DecidableEq, Repr

/-- An `std::io::Error`: a kind and its message. -/
structure IOErr where
  kind : ErrorKind
  msg : String
deriving DecidableEq, Repr

/-- Result of a Rust computation: it may panic, return an error, or succeed. -/
inductive Outcome (α : Type)
  | panicked
  | err (e : IOErr)
  | ok (v : α)
deriving DecidableEq, Repr

/-! ## Config Selector (`tools/config.rs`, struct `File`) -/

/-- The `File` struct of `tools/config.rs`: the discovered profile paths
(the `files` vector) and the fixed credentials path (`auth`). -/
structure ConfigFile where
  files : List String
  auth : String
deriving DecidableEq, Repr

/-- `File::get_random_file_path`.  The lock on the `files` mutex can fail
(`lock_file` maps a poisoned lock to an I/O error, propagated by `?`);
`rand::rng().random_range(0..file.len())` panics when the range `0..0` is
empty, i.e. when no profile was discovered; indexing `file[ridx]` panics
when out of bounds (unreachable for an in-range draw).  The drawn index
`ridx` stands for the RNG's uniformly distributed sample over `0..len`. -/
def ConfigFile.getRandomFilePath (cfg : ConfigFile) (lockPoisoned : Bool)
    (ridx : Nat) : Outcome String :=
  if lockPoisoned then .err ⟨.other, "Failed to lock file"⟩
  else if cfg.files.length = 0 then .panicked
  else
    match cfg.files[ridx]? with
    | some f => .ok f
    | none => .panicked

/-! ## Process Supervisor (`tools/handler.rs`, struct `Handler`) -/

/-- One invocation of the external VPN client binary, as built in
`Handler::start`: `openvpn --config <profile> --auth-user-pass <auth>`. -/
structure SpawnCmd where
  program : String
  configArg : String
  authArg : String
deriving DecidableEq, Repr

/-- A spawned child process, identified by the command that spawned it. -/
abbrev Child := SpawnCmd

/-- The `Handler` struct: the config selector and the optional child. -/
structure Handler where
  config : ConfigFile
  child : Option Child
deriving DecidableEq, Repr

/-- Result of `Handler::start`: the returned value, the updated handler,
the spawn invocations attempted (in order), and the number of 1-second
sleeps performed. -/
structure StartOut where
  res : Outcome Unit
  handler : Handler
  spawns : List SpawnCmd
  sleeps : Nat
deriving DecidableEq, Repr

/-- The `for _ in 0..10` retry loop of `Handler::start`.  Each iteration
draws a fresh profile via `get_random_file_path` (the `?` propagates its
error; a panic propagates as a panic), attempts the spawn (`spawnOk`
tells whether the OS spawn at a given attempt succeeds), and sleeps one
second after a failed attempt.  After the loop, the error
`Other, "Failed to start OpenVPN"` (SpawnExhausted) is returned. -/
def Handler.startLoop (cfg : ConfigFile) (lockPoisoned : Bool)
    (draws : Nat → Nat) (spawnOk : Nat → Bool) :
    Nat → Nat → Outcome Child × List SpawnCmd × Nat
  | _, 0 => (.err ⟨.other, "Failed to start OpenVPN"⟩, [], 0)
  | attempt, fuel + 1 =>
    match cfg.getRandomFilePath lockPoisoned (draws attempt) with
    | .panicked => (.panicked, [], 0)
    | .err e => (.err e, [], 0)
    | .ok path =>
      let cmd : SpawnCmd := ⟨"openvpn", path, cfg.auth⟩
      if spawnOk attempt then (.ok cmd, [cmd], 0)
      else
        let rest := Handler.startLoop cfg lockPoisoned draws spawnOk (attempt + 1) fuel
        (rest.1, cmd :: rest.2.1, rest.2.2 + 1)

/-- `Handler::start`.  Fails immediately with `AlreadyExists` when a child
handle already exists; otherwise runs the 10-attempt spawn loop and, on
success, stores the new child handle. -/
def Handler.start (h : Handler) (lockPoisoned : Bool) (draws : Nat → Nat)
    (spawnOk : Nat → Bool) : StartOut :=
  match h.child with
  | some _ => ⟨.err ⟨.alreadyExists, "OpenVPN is already running"⟩, h, [], 0⟩
  | none =>
    match Handler.startLoop h.config lockPoisoned draws spawnOk 0 10 with
    | (.ok c, spawns, sleeps) => ⟨.ok (), { h with child := some c }, spawns, sleeps⟩
    | (.err e, spawns, sleeps) => ⟨.err e, h, spawns, sleeps⟩
    | (.panicked, spawns, sleeps) => ⟨.panicked, h, spawns, sleeps⟩

/-- Result of `Handler::stop`: the returned value, the updated handler,
the number of kill attempts made, and the number of 1-second sleeps. -/
structure StopOut where
  res : Outcome Unit
  handler : Handler
  killAttempts : Nat
  sleeps : Nat
deriving DecidableEq, Repr

/-- The `for _ in 0..10` kill loop of `Handler::stop`: `killOk` tells
whether `child.kill()` at a given attempt succeeds; a failed attempt is
followed by a 1-second sleep.  After the loop, the error
`Other, "Failed to stop OpenVPN"` (TerminateExhausted) is returned. -/
def Handler.stopLoop (killOk : Nat → Bool) : Nat → Nat → Outcome Unit × Nat × Nat
  | _, 0 => (.err ⟨.other, "Failed to stop OpenVPN"⟩, 0, 0)
  | attempt, fuel + 1 =>
    if killOk attempt then (.ok (), 1, 0)
    else
      let rest := Handler.stopLoop killOk (attempt + 1) fuel
      (rest.1, rest.2.1 + 1, rest.2.2 + 1)

/-- `Handler::stop`.  `self.child.take()` removes the handle first: with no
child this is a no-op success, otherwise the 10-attempt kill loop runs on
the taken child while `self.child` is already `None`. -/
def Handler.stop (h : Handler) (killOk : Nat → Bool) : StopOut :=
  match h.child with
  | none => ⟨.ok (), h, 0, 0⟩
  | some _ =>
    let taken : Handler := { h with child := none }
    let r := Handler.stopLoop killOk 0 10
    ⟨r.1, taken, r.2.1, r.2.2⟩

/-! ## Status Notifier Client (`tools/notifier.rs`, struct `Notifier`) -/

/-- `Notifier::connect`: up to 10 connection attempts to the status socket
with a 50 ms sleep after each failure; `connectOk` tells whether the
attempt at a given index succeeds (the returned `Nat` identifies the new
connection by its attempt index).  After the loop, the error
`NotFound, "Failed to connect to socket"` is returned. -/
def Notifier.connectLoop (connectOk : Nat → Bool) : Nat → Nat → Except VpnHandler.IOErr Nat
  | _, 0 => .error ⟨.notFound, "Failed to connect to socket"⟩
  | attempt, fuel + 1 =>
    if connectOk attempt then .ok attempt
    else Notifier.connectLoop connectOk (attempt + 1) fuel

/-- The `for _ in 0..10` send loop of `Notifier::send_message`: `writeOk`
tells whether `write_all` at a given attempt succeeds; on failure the
client reconnects (`reconnect` is the result of `Self::connect()`, whose
error propagates via `?`) and sleeps 250 ms.  After the loop, the error
`BrokenPipe, "Failed to send message"` (DeliveryFailed) is returned. -/
def Notifier.sendLoop (writeOk : Nat → Bool) (reconnect : Nat → Except VpnHandler.IOErr Nat) :
    Nat → Nat → Except VpnHandler.IOErr Unit
  | _, 0 => .error ⟨.brokenPipe, "Failed to send message"⟩
  | attempt, fuel + 1 =>
    if writeOk attempt then .ok ()
    else
      match reconnect attempt with
      | .error e => .error e
      | .ok _ => Notifier.sendLoop writeOk reconnect (attempt + 1) fuel

/-- `Notifier::send_message`. -/
def Notifier.sendMessage (writeOk : Nat → Bool)
    (reconnect : Nat → Except VpnHandler.IOErr Nat) : Except VpnHandler.IOErr Unit :=
  Notifier.sendLoop writeOk reconnect 0 10

/-! ## Runner (serial-driven state machine, `main.rs::runner`) -/

/-- Observable actions of one runner loop iteration: a Supervisor start
call, a Supervisor stop call, and a successfully delivered status message. -/
inductive REvent
  | startCall
  | stopCall
  | emit (msg : String)
deriving DecidableEq, Repr

/-- The Runner's mutable state: `previous_command : u8` (0 initially, 255
after an acted-upon `Turn On`, 0 after an acted-upon `Turn Off`) and the
supervisor it owns. -/
structure RunnerState where
  prev : Nat
  handler : Handler
deriving DecidableEq, Repr

/-- Oracles for the external effects of one runner loop iteration. -/
structure StepOracles where
  lockPoisoned : Bool
  draws : Nat → Nat
  spawnOk : Nat → Bool
  killOk : Nat → Bool
  writeOk : Nat → Bool
  reconnect : Nat → Except VpnHandler.IOErr Nat

/-- Result of one runner loop iteration: either the loop continues with a
new state, or `runner` returns (its `Result`, embedded as an `Outcome`,
since a panic inside the iteration also ends the loop). -/
inductive StepResult
  | cont (s : RunnerState) (events : List REvent)
  | exit (r : Outcome Unit) (s : RunnerState) (events : List REvent)
deriving DecidableEq, Repr

/-- One iteration of the `runner` loop body in `main.rs` on a successful
serial read of `msg`, with the kill flag unset.  On `"Turn On"` with
`previous_command != 255`: set `previous_command = 255`, call
`handler.start()?` (its error or panic ends the loop), sleep 10 s, then
`notifier.send_message("STATUS Connected")?` (its error ends the loop) and
log (a logging failure only `continue`s, which is the same control flow as
success).  `"Turn Off"` is symmetric with `handler.stop()?`, a 5 s sleep
and `"STATUS Disconnected"`.  Any other message is ignored. -/
def runnerStep (s : RunnerState) (msg : String) (o : StepOracles) : StepResult :=
  if msg = "Turn On" then
    if s.prev ≠ 255 then
      let st := s.handler.start o.lockPoisoned o.draws o.spawnOk
      let s1 : RunnerState := ⟨255, st.handler⟩
      match st.res with
      | .ok _ =>
        match Notifier.sendMessage o.writeOk o.reconnect with
        | .ok _ => .cont s1 [.startCall, .emit "STATUS Connected"]
        | .error e => .exit (.err e) s1 [.startCall]
      | .err e => .exit (.err e) s1 [.startCall]
      | .panicked => .exit .panicked s1 [.startCall]
    else .cont s []
  else if msg = "Turn Off" then
    if s.prev ≠ 0 then
      let st := s.handler.stop o.killOk
      let s1 : RunnerState := ⟨0, st.handler⟩
      match st.res with
      | .ok _ =>
        match Notifier.sendMessage o.writeOk o.reconnect with
        | .ok _ => .cont s1 [.stopCall, .emit "STATUS Disconnected"]
        | .error e => .exit (.err e) s1 [.stopCall]
      | .err e => .exit (.err e) s1 [.stopCall]
      | .panicked => .exit .panicked s1 [.stopCall]
    else .cont s []
  else .cont s []

/-- Result of running the runner loop over a list of serial messages. -/
structure RunOut where
  state : RunnerState
  events : List REvent
  exitRes : Option (Outcome Unit)
deriving DecidableEq, Repr

/-- The runner loop over a finite list of serial reads (kill flag unset
throughout), threading the state and collecting events; stops early when
an iteration makes `runner` return. -/
def runRunner (os : Nat → StepOracles) : RunnerState → List String → Nat → RunOut
  | s, [], _ => ⟨s, [], none⟩
  | s, msg :: rest, i =>
    match runnerStep s msg (os i) with
    | .cont s1 evs =>
      let out := runRunner os s1 rest (i + 1)
      ⟨out.state, evs ++ out.events, out.exitRes⟩
    | .exit r s1 evs => ⟨s1, evs, some r⟩

/-! ## Control Daemon (`main.rs::main` accept loop) -/

/-- How the spawned runner thread ends: `normal` when its closure returns,
`panicked` when it unwinds. -/
inductive ThreadEnd
  | normal
  | panicked
deriving DecidableEq, Repr

/-- How the closure passed to `thread::spawn` in the `"start"` arm ends,
given the value `runner` returned (or its panic): on `Ok` the closure
falls through the `match`; on `Err` it logs and calls the panic macro; a
panic inside `runner` itself also unwinds. -/
def runnerThreadEnd : Outcome Unit → ThreadEnd
  | .ok _ => .normal
  | .err _ => .panicked
  | .panicked => .panicked

/-- The value of the shared `KILL_RUNNER` flag after the runner thread has
fully exited, given the value `runner` returned and the flag's value at
exit time.  `KILL_RUNNER.store(false)` is written after the `match`, so it
runs only when the closure returns normally (the `Err` arm unwinds on the
panic macro before reaching it, leaving the flag unchanged). -/
def runnerThreadFinalFlag (runnerResult : Outcome Unit) (flag : Bool) : Bool :=
  match runnerResult with
  | .ok _ => false
  | .err _ => flag
  | .panicked => flag

/-- Daemon-side observable state of the accept loop in `main`:
whether `process : Option<JoinHandle>` is `Some`, the `KILL_RUNNER`
atomic, and the number of live (spawned, not yet joined) runner threads. -/
structure DaemonState where
  hasProcess : Bool
  killRunner : Bool
  runnerCount : Nat
deriving DecidableEq, Repr

/-- Observable actions of handling one control connection. -/
inductive DEvent
  | reply (s : String)
  | spawnedRunner
  | joinedRunner
  | setFlag (b : Bool)
deriving DecidableEq, Repr

/-- Handling of one accepted control connection in `main`, given the
command read from the socket and the runner result the joined thread ended
with (used only on the `"stop"`-with-process path, where `handle.join()`
waits for the thread whose closure decides the final flag value).
`"status"` is a pure query; `"start"` with a tracked process replies
"Daemon is already running" and changes nothing, otherwise it spawns the
runner thread; `"stop"` stores `true` into `KILL_RUNNER` first and then
joins the taken handle when there is one; anything else is rejected. -/
def daemonStep (s : DaemonState) (exitRes : Outcome Unit) (cmd : String) :
    DaemonState × List DEvent :=
  if cmd = "status" then
    (s, [.reply (if s.hasProcess then "Daemon is running" else "Daemon is not running")])
  else if cmd = "start" then
    if s.hasProcess then (s, [.reply "Daemon is already running"])
    else
      ({ s with hasProcess := true, runnerCount := s.runnerCount + 1 },
       [.spawnedRunner, .reply "Daemon started"])
  else if cmd = "stop" then
    if s.hasProcess then
      ({ hasProcess := false,
         killRunner := runnerThreadFinalFlag exitRes true,
         runnerCount := s.runnerCount - 1 },
       [.setFlag true, .reply "Killing VPN if needed...", .joinedRunner,
        .reply "Stopped listening to Arduino..."])
    else ({ s with killRunner := true }, [.setFlag true])
  else (s, [.reply "Received invalid command!"])

/-! ## Log Writer (`tools/logger.rs`, struct `Logger`)

The freshness check `Logger::rotate_needed` reads the first line of the
log file, removes the literal header tag `"LOG CREATED AT: "`
(`strip_prefix`), parses the remainder with chrono's
`NaiveDateTime::parse_from_str(_, "%Y-%m-%d %H:%M:%S")`, and rotates when
`now.signed_duration_since(timestamp) > Duration::hours(24)`.  Timestamps
are embedded as calendar fields validated the way chrono validates them
(month 1–12, day within the month, hour 0–23, minute and second 0–59) and
compared through their second count `toSecs`. -/

/-- Value of a decimal digit character. -/
def digitVal? (c : Char) : Option Nat :=
  if c.isDigit then some (c.toNat - 48) else none

/-- Two decimal digit characters as a number. -/
def nat2 (a b : Char) : Option Nat :=
  match digitVal? a, digitVal? b with
  | some x, some y => some (10 * x + y)
  | _, _ => none

/-- Four decimal digit characters as a number. -/
def nat4 (a b c d : Char) : Option Nat :=
  match nat2 a b, nat2 c d with
  | some x, some y => some (100 * x + y)
  | _, _ => none

/-- A parsed `NaiveDateTime` at second precision. -/
structure DateTime where
  year : Nat
  month : Nat
  day : Nat
  hour : Nat
  minute : Nat
  second : Nat
deriving DecidableEq, Repr

/-- Gregorian leap-year rule. -/
def isLeapYear (y : Nat) : Bool :=
  (y % 4 = 0 && y % 100 != 0) || y % 400 = 0

/-- Length of a month. -/
def daysInMonth (y m : Nat) : Nat :=
  if m = 2 then (if isLeapYear y then 29 else 28)
  else if m = 4 ∨ m = 6 ∨ m = 9 ∨ m = 11 then 30
  else 31

/-- Field validation matching chrono's calendar check. -/
def validDateTime (t : DateTime) : Bool :=
  1 ≤ t.month && t.month ≤ 12 && 1 ≤ t.day && t.day ≤ daysInMonth t.year t.month
    && t.hour ≤ 23 && t.minute ≤ 59 && t.second ≤ 59

/-- Parse of the fixed format `YYYY-MM-DD HH:MM:SS` (the canonical form
emitted by `rotate_logs` and accepted by `parse_from_str`); anything else
is a parse error, which `rotate_needed` turns into a hard
`DateTimeParseError`. -/
def parseTimestamp (s : String) : Option DateTime :=
  match s.toList with
  | [y1, y2, y3, y4, d1, mo1, mo2, d2, dy1, dy2, sp, h1, h2, c1, mi1, mi2, c2, s1, s2] =>
    if d1 = '-' && d2 = '-' && sp = ' ' && c1 = ':' && c2 = ':' then
      match nat4 y1 y2 y3 y4, nat2 mo1 mo2, nat2 dy1 dy2,
            nat2 h1 h2, nat2 mi1 mi2, nat2 s1 s2 with
      | some y, some mo, some dy, some h, some mi, some sec =>
        let t : DateTime := ⟨y, mo, dy, h, mi, sec⟩
        if validDateTime t then some t else none
      | _, _, _, _, _, _ => none
    else none
  | _ => none

/-- Days from 1 January of year 1 to 1 January of year `y` (proleptic
Gregorian), for `y ≥ 1`. -/
def daysBeforeYear (y : Nat) : Nat :=
  365 * (y - 1) + (y - 1) / 4 - (y - 1) / 100 + (y - 1) / 400

/-- Days from 1 January to the first day of month `m` in year `y`. -/
def daysBeforeMonth (y m : Nat) : Nat :=
  (List.range (m - 1)).foldl (fun acc i => acc + daysInMonth y (i + 1)) 0

/-- Seconds elapsed from the epoch 0001-01-01 00:00:00 to `t`; differences
of `toSecs` values are exactly chrono's `signed_duration_since` in whole
seconds. -/
def toSecs (t : DateTime) : Nat :=
  (daysBeforeYear t.year + daysBeforeMonth t.year t.month + (t.day - 1)) * 86400
    + t.hour * 3600 + t.minute * 60 + t.second

/-- The literal header tag of the log file's first line. -/
def logHeaderTag : String := "LOG CREATED AT: "

/-- Remove a leading tag from a character list, or fail. -/
def dropTag : List Char → List Char → Option (List Char)
  | [], rest => some rest
  | _ :: _, [] => none
  | t :: ts, c :: cs => if c = t then dropTag ts cs else none

/-- The `first_line.strip_prefix("LOG CREATED AT: ")` step. -/
def dropLogHeader (s : String) : Option String :=
  (dropTag logHeaderTag.toList s.toList).map fun cs => String.mk cs

/-- What opening the log file and reading its first line can yield:
the file is missing (`ErrorKind::NotFound`), it is empty (`lines().next()`
is `None`), or it has a first line. -/
inductive LogFirstLine
  | fileMissing
  | fileEmpty
  | line (s : String)
deriving DecidableEq, Repr

/-- The `LoggerError` taxonomy of `tools/logger.rs` (`DateTimeParseError`
split into its two `ParseError` cases). -/
inductive LoggerErr
  | ioError (msg : String)
  | missingHeaderError
  | timeParseError
deriving DecidableEq, Repr

/-- `Logger::rotate_needed`, with the filesystem read abstracted into the
`LogFirstLine` it produced and `now` (the whole-second value of
`Local::now().naive_local()`) given as a `toSecs`-style second count.  A
missing file requires rotation; an empty file is an I/O error; a first
line without the header tag or with an unparsable timestamp is a hard
error; otherwise rotation is required exactly when the elapsed signed
duration `now - timestamp` exceeds 24 hours. -/
def rotateNeeded (f : LogFirstLine) (now : Nat) : Except LoggerErr Bool :=
  match f with
  | .fileMissing => .ok true
  | .fileEmpty => .error (.ioError "Log File Is Empty")
  | .line s =>
    match dropLogHeader s with
    | none => .error .missingHeaderError
    | some tsStr =>
      match parseTimestamp tsStr with
      | none => .error .timeParseError
      | some t =>
        if (now : Int) - (toSecs t : Int) > 86400 then .ok true else .ok false

/-- Whether an `Outcome` is an `Err` return (as opposed to success or a panic). -/
def Outcome.isErr {α : Type} : Outcome α → Bool
  | .err _ => true
  | _ => false

/-- Whether a runner loop iteration ended the loop. -/
def StepResult.isExit : StepResult → Bool
  | .cont _ _ => false
  | .exit _ _ _ => true

/-! ## Helper lemmas -/

theorem getRandomFilePath_ok (cfg : ConfigFile) (ridx : Nat)
    (h : ridx < cfg.files.length) :
    cfg.getRandomFilePath false ridx = .ok (cfg.files.getD ridx "") := by
  have h0 : ¬ cfg.files.length = 0 := by omega
  have hget : cfg.files[ridx]? = some cfg.files[ridx] := List.getElem?_eq_getElem h
  have hD : cfg.files.getD ridx "" = cfg.files[ridx] := by
    simp [List.getD, hget]
  simp [ConfigFile.getRandomFilePath, h0, hget, hD]

theorem getRandomFilePath_err (cfg : ConfigFile) (lp : Bool) (ridx : Nat) (e : IOErr)
    (h : cfg.getRandomFilePath lp ridx = .err e) : e = ⟨.other, "Failed to lock file"⟩ := by
  unfold ConfigFile.getRandomFilePath at h
  by_cases hlp : lp
  · simp [hlp] at h
    exact h.symm
  · by_cases h0 : cfg.files.length = 0
    · simp [hlp, h0] at h
    · rcases hg : cfg.files[ridx]? with _ | f <;> simp [hlp, h0, hg] at h

theorem startLoop_allFail (cfg : ConfigFile) (draws : Nat → Nat) (spawnOk : Nat → Bool)
    (hdr : ∀ i, draws i < cfg.files.length) (hs : ∀ i, spawnOk i = false) :
    ∀ fuel a, Handler.startLoop cfg false draws spawnOk a fuel =
      (.err ⟨.other, "Failed to start OpenVPN"⟩,
       (List.range fuel).map (fun j => ⟨"openvpn", cfg.files.getD (draws (a + j)) "", cfg.auth⟩),
       fuel)
  | 0, a => by simp [Handler.startLoop]
  | fuel + 1, a => by
    have ih := startLoop_allFail cfg draws spawnOk hdr hs fuel (a + 1)
    have harith : ∀ j : Nat, a + 1 + j = a + (j + 1) := by omega
    simp [Handler.startLoop, getRandomFilePath_ok cfg (draws a) (hdr a), hs a, ih,
          List.range_succ_eq_map, List.map_map, Function.comp, harith]

theorem startLoop_firstOk (cfg : ConfigFile) (draws : Nat → Nat) (spawnOk : Nat → Bool)
    (a fuel : Nat) (hdr : draws a < cfg.files.length) (hs : spawnOk a = true) :
    Handler.startLoop cfg false draws spawnOk a (fuel + 1) =
      (.ok ⟨"openvpn", cfg.files.getD (draws a) "", cfg.auth⟩,
       [⟨"openvpn", cfg.files.getD (draws a) "", cfg.auth⟩], 0) := by
  simp [Handler.startLoop, getRandomFilePath_ok cfg (draws a) hdr, hs]

theorem startLoop_head (cfg : ConfigFile) (draws : Nat → Nat) (spawnOk : Nat → Bool)
    (a fuel : Nat) (hdr : draws a < cfg.files.length) :
    (Handler.startLoop cfg false draws spawnOk a (fuel + 1)).2.1.head? =
      some ⟨"openvpn", cfg.files.getD (draws a) "", cfg.auth⟩ := by
  by_cases hs : spawnOk a <;>
    simp [Handler.startLoop, getRandomFilePath_ok cfg (draws a) hdr, hs]

theorem startLoop_err_kind (cfg : ConfigFile) (lp : Bool) (draws : Nat → Nat)
    (spawnOk : Nat → Bool) :
    ∀ fuel a e, (Handler.startLoop cfg lp draws spawnOk a fuel).1 = .err e →
      e.kind = .other
  | 0, a, e => by
    intro h
    simp [Handler.startLoop] at h
    simp [← h]
  | fuel + 1, a, e => by
    intro h
    rcases hpick : cfg.getRandomFilePath lp (draws a) with _ | e0 | path
    · simp [Handler.startLoop, hpick] at h
    · simp [Handler.startLoop, hpick] at h
      have := getRandomFilePath_err cfg lp (draws a) e0 hpick
      simp [← h, this]
    · by_cases hs : spawnOk a
      · simp [Handler.startLoop, hpick, hs] at h
      · simp [Handler.startLoop, hpick, hs] at h
        exact startLoop_err_kind cfg lp draws spawnOk fuel (a + 1) e h

theorem start_firstOk (h : Handler) (draws : Nat → Nat) (spawnOk : Nat → Bool)
    (hchild : h.child = none) (hdr : draws 0 < h.config.files.length)
    (hs : spawnOk 0 = true) :
    h.start false draws spawnOk =
      ⟨.ok (),
       { h with child := some ⟨"openvpn", h.config.files.getD (draws 0) "", h.config.auth⟩ },
       [⟨"openvpn", h.config.files.getD (draws 0) "", h.config.auth⟩], 0⟩ := by
  simp [Handler.start, hchild, startLoop_firstOk h.config draws spawnOk 0 9 hdr hs]

theorem stopLoop_allFail (killOk : Nat → Bool) (hk : ∀ i, killOk i = false) :
    ∀ fuel a, Handler.stopLoop killOk a fuel =
      (.err ⟨.other, "Failed to stop OpenVPN"⟩, fuel, fuel)
  | 0, _ => by simp [Handler.stopLoop]
  | fuel + 1, a => by
    simp [Handler.stopLoop, hk a, stopLoop_allFail killOk hk fuel (a + 1)]

theorem stopLoop_firstOk (killOk : Nat → Bool) :
    ∀ k fuel a, k < fuel → (∀ j, j < k → killOk (a + j) = false) → killOk (a + k) = true →
      Handler.stopLoop killOk a fuel = (.ok (), k + 1, k)
  | 0, fuel + 1, a, _, _, hk => by
    have ha : killOk a = true := by simpa using hk
    simp [Handler.stopLoop, ha]
  | k + 1, fuel + 1, a, hlt, hj, hk => by
    have h0 : killOk a = false := by simpa using hj 0 (by omega)
    have ih := stopLoop_firstOk killOk k fuel (a + 1) (by omega)
      (fun j hjk => by
        have := hj (j + 1) (by omega)
        have harith : a + (j + 1) = a + 1 + j := by omega
        rwa [harith] at this)
      (by
        have harith : a + (k + 1) = a + 1 + k := by omega
        rwa [harith] at hk)
    simp [Handler.stopLoop, h0, ih]

theorem sendMessage_firstOk (writeOk : Nat → Bool)
    (reconnect : Nat → Except IOErr Nat) (hw : writeOk 0 = true) :
    Notifier.sendMessage writeOk reconnect = .ok () := by
  simp [Notifier.sendMessage, Notifier.sendLoop, hw]

theorem runnerStep_turnOn_good (s : RunnerState) (o : StepOracles)
    (hprev : s.prev ≠ 255) (hchild : s.handler.child = none)
    (hlp : o.lockPoisoned = false)
    (hdr : o.draws 0 < s.handler.config.files.length)
    (hspawn : o.spawnOk 0 = true) (hwrite : o.writeOk 0 = true) :
    runnerStep s "Turn On" o =
      .cont ⟨255, { s.handler with
                    child := some ⟨"openvpn",
                                   s.handler.config.files.getD (o.draws 0) "",
                                   s.handler.config.auth⟩ }⟩
        [.startCall, .emit "STATUS Connected"] := by
  have hstart := start_firstOk s.handler o.draws o.spawnOk hchild hdr hspawn
  simp [runnerStep, hprev, hlp, hstart,
        sendMessage_firstOk o.writeOk o.reconnect hwrite]

theorem runnerStep_turnOn_repeat (s : RunnerState) (o : StepOracles)
    (hprev : s.prev = 255) : runnerStep s "Turn On" o = .cont s [] := by
  simp [runnerStep, hprev]

theorem runRunner_turnOn_absorbed (os : Nat → StepOracles) (s : RunnerState)
    (hprev : s.prev = 255) :
    ∀ k i, runRunner os s (List.replicate k "Turn On") i = ⟨s, [], none⟩
  | 0, i => by simp [runRunner]
  | k + 1, i => by
    simp [List.replicate_succ, runRunner, runnerStep_turnOn_repeat s (os i) hprev,
          runRunner_turnOn_absorbed os s hprev k (i + 1)]

theorem dropTag_append (cs : List Char) : ∀ ts, dropTag ts (ts ++ cs) = some cs := by
  intro ts
  induction ts with
  | nil => simp [dropTag]
  | cons t ts ih => simp [dropTag, ih]

theorem dropLogHeader_append (s : String) :
    dropLogHeader (logHeaderTag ++ s) = some s := by
  unfold dropLogHeader
  have hdata : (logHeaderTag ++ s).toList = logHeaderTag.toList ++ s.toList := by
    simp [String.toList]
  rw [hdata, dropTag_append]
  rfl

theorem rotateNeeded_parsed (s : String) (t : DateTime) (now : Nat)
    (h : parseTimestamp s = some t) :
    rotateNeeded (.line (logHeaderTag ++ s)) now =
      .ok (decide ((now : Int) - (toSecs t : Int) > 86400)) := by
  by_cases hc : (now : Int) - (toSecs t : Int) > 86400 <;>
    simp [rotateNeeded, dropLogHeader_append, h, hc]

theorem start_err_kind (h : Handler) (lp : Bool) (draws : Nat → Nat) (spawnOk : Nat → Bool)
    (e : IOErr) (hchild : h.child = none)
    (he : (h.start lp draws spawnOk).res = .err e) : e.kind = .other := by
  unfold Handler.start at he
  rw [hchild] at he
  rcases h10 : Handler.startLoop h.config lp draws spawnOk 0 10 with ⟨r, sp, sl⟩
  rw [h10] at he
  rcases r with _ | e0 | c0 <;> simp at he
  exact startLoop_err_kind h.config lp draws spawnOk 10 0 e (by rw [h10, he])

theorem start_spawns (h : Handler) (lp : Bool) (draws : Nat → Nat) (spawnOk : Nat → Bool)
    (hchild : h.child = none) :
    (h.start lp draws spawnOk).spawns =
      (Handler.startLoop h.config lp draws spawnOk 0 10).2.1 := by
  unfold Handler.start
  rw [hchild]
  rcases h10 : Handler.startLoop h.config lp draws spawnOk 0 10 with ⟨r, sp, sl⟩
  rcases r with _ | e0 | c0 <;> simp

/-! ## Claim theorems -/

/-- C1 counterexample: with a fresh handler, a working spawn, and a status
socket whose writes always fail (reconnects succeed), the `"Turn On"`
iteration does NOT continue the loop: `send_message`'s exhaustion error is
propagated by `?` and ends the runner, so notifier delivery failure aborts
the calling operation, contrary to the claim. -/
theorem notifier_failure_aborts_cex :
    runnerStep ⟨0, ⟨⟨["client.ovpn"], "/home/kwunch/VPN/auth.txt"⟩, none⟩⟩ "Turn On"
        ⟨false, fun _ => 0, fun _ => true, fun _ => true, fun _ => false, fun i => .ok i⟩
      = .exit (.err ⟨.brokenPipe, "Failed to send message"⟩)
          ⟨255, ⟨⟨["client.ovpn"], "/home/kwunch/VPN/auth.txt"⟩,
                 some ⟨"openvpn", "client.ovpn", "/home/kwunch/VPN/auth.txt"⟩⟩⟩
          [.startCall]
    ∧ (runnerStep ⟨0, ⟨⟨["client.ovpn"], "/home/kwunch/VPN/auth.txt"⟩, none⟩⟩ "Turn On"
        ⟨false, fun _ => 0, fun _ => true, fun _ => true, fun _ => false,
         fun i => .ok i⟩).isExit = true := by
  constructor <;> rfl

/-- C1 (amended): when the Status Notifier Client's send exhausts its
attempts and returns an error during a `"Turn On"` or `"Turn Off"`
transition, the Runner IS aborted: the error propagates out of the loop
(the runner returns `Err`), rather than being logged and the loop
continuing. -/
theorem notifier_failure_aborts (s s2 : RunnerState) (o : StepOracles) (e : IOErr)
    (hsend : Notifier.sendMessage o.writeOk o.reconnect = .error e)
    (hOn : s.prev ≠ 255)
    (hOnStart : (s.handler.start o.lockPoisoned o.draws o.spawnOk).res = .ok ())
    (hOff : s2.prev ≠ 0)
    (hOffStop : (s2.handler.stop o.killOk).res = .ok ()) :
    runnerStep s "Turn On" o =
      .exit (.err e) ⟨255, (s.handler.start o.lockPoisoned o.draws o.spawnOk).handler⟩
        [.startCall]
    ∧ runnerStep s2 "Turn Off" o =
      .exit (.err e) ⟨0, (s2.handler.stop o.killOk).handler⟩ [.stopCall] := by
  constructor
  · simp [runnerStep, hOn, hOnStart, hsend]
  · simp [runnerStep, hOff, hOffStop, hsend]

/-- Witness for the amended C1 theorem at a concrete state and oracles. -/
theorem notifier_failure_aborts_witness :
    Notifier.sendMessage (fun _ => false) (fun i => .ok i)
        = .error ⟨.brokenPipe, "Failed to send message"⟩
    ∧ ((0 : Nat) ≠ 255)
    ∧ ((Handler.start ⟨⟨["a.ovpn"], "auth.txt"⟩, none⟩ false (fun _ => 0)
          (fun _ => true)).res = .ok ())
    ∧ ((255 : Nat) ≠ 0)
    ∧ ((Handler.stop ⟨⟨["a.ovpn"], "auth.txt"⟩, some ⟨"openvpn", "a.ovpn", "auth.txt"⟩⟩
          (fun _ => true)).res = .ok ())
    ∧ runnerStep ⟨0, ⟨⟨["a.ovpn"], "auth.txt"⟩, none⟩⟩ "Turn On"
        ⟨false, fun _ => 0, fun _ => true, fun _ => true, fun _ => false, fun i => .ok i⟩
      = .exit (.err ⟨.brokenPipe, "Failed to send message"⟩)
          ⟨255, (Handler.start ⟨⟨["a.ovpn"], "auth.txt"⟩, none⟩ false (fun _ => 0)
                  (fun _ => true)).handler⟩
          [.startCall] := by
  refine ⟨by rfl, by decide, by rfl, by decide, by rfl, ?_⟩
  exact (notifier_failure_aborts ⟨0, ⟨⟨["a.ovpn"], "auth.txt"⟩, none⟩⟩
    ⟨255, ⟨⟨["a.ovpn"], "auth.txt"⟩, some ⟨"openvpn", "a.ovpn", "auth.txt"⟩⟩⟩
    ⟨false, fun _ => 0, fun _ => true, fun _ => true, fun _ => false, fun i => .ok i⟩
    ⟨.brokenPipe, "Failed to send message"⟩
    (by rfl) (by decide) (by rfl) (by decide) (by rfl)).1

/-- C2: handling a `stop` control command while no Runner thread is
tracked (`process == None`).  The code stores `true` into the shared
`KILL_RUNNER` flag before checking for a runner and nothing resets it, so
the flag is left `true` — not `false` as the claim (and the spec's own
invariant) requires.  No runner thread is spawned, as the event list
shows. -/
theorem stop_without_runner_leaves_flag_true :
    daemonStep ⟨false, false, 0⟩ (.ok ()) "stop" = (⟨false, true, 0⟩, [.setFlag true]) := by
  rfl

/-- C3: the value of `KILL_RUNNER` after the spawned runner thread exits.
On a normal return (`runner` gave `Ok`) the flag is reset to `false`; but
when `runner` gives `Err`, the closure's `Err` arm unwinds on its panic
macro before `KILL_RUNNER.store(false)` is reached, so the flag keeps its
value (`true` stays `true`), contrary to the claim that the flag is reset
on exit for any reason. -/
theorem runner_error_exit_keeps_flag :
    runnerThreadFinalFlag (.ok ()) true = false
    ∧ runnerThreadFinalFlag (.err ⟨.other, "serial read failed"⟩) true = true
    ∧ runnerThreadEnd (.err ⟨.other, "serial read failed"⟩) = .panicked := by
  exact ⟨rfl, rfl, rfl⟩

/-- C4 counterexample: with an empty discovered profile set,
`get_random_file_path` panics (`random_range` over the empty range `0..0`)
instead of returning an error, contrary to the claim. -/
theorem pick_random_empty_cex :
    ConfigFile.getRandomFilePath ⟨[], "/home/kwunch/VPN/auth.txt"⟩ false 0 = .panicked
    ∧ (ConfigFile.getRandomFilePath ⟨[], "/home/kwunch/VPN/auth.txt"⟩ false 0).isErr
        = false := by
  exact ⟨rfl, rfl⟩

/-- C4 (amended): when the discovered profile set is empty,
`get_random_file_path` panics (the uniform draw over `0..0` is over an
empty range); when the set is non-empty it returns the element of the set
at the uniformly drawn in-range index. -/
theorem pick_random_spec (cfg : ConfigFile) (ridx : Nat)
    (h : ridx < cfg.files.length) :
    ConfigFile.getRandomFilePath ⟨[], cfg.auth⟩ false ridx = .panicked
    ∧ cfg.getRandomFilePath false ridx = .ok (cfg.files.getD ridx "")
    ∧ cfg.files.getD ridx "" ∈ cfg.files := by
  refine ⟨by simp [ConfigFile.getRandomFilePath], getRandomFilePath_ok cfg ridx h, ?_⟩
  have hD : cfg.files.getD ridx "" = cfg.files[ridx] := by
    simp [List.getD, List.getElem?_eq_getElem h]
  rw [hD]
  exact List.getElem_mem h

/-- Witness for the amended C4 theorem on a concrete two-element set. -/
theorem pick_random_spec_witness :
    (1 : Nat) < (ConfigFile.mk ["a.ovpn", "b.ovpn"] "auth.txt").files.length
    ∧ ConfigFile.getRandomFilePath ⟨[], "auth.txt"⟩ false 1 = .panicked
    ∧ ConfigFile.getRandomFilePath ⟨["a.ovpn", "b.ovpn"], "auth.txt"⟩ false 1
        = .ok "b.ovpn"
    ∧ "b.ovpn" ∈ (ConfigFile.mk ["a.ovpn", "b.ovpn"] "auth.txt").files := by
  refine ⟨by decide, ?_⟩
  have h := pick_random_spec ⟨["a.ovpn", "b.ovpn"], "auth.txt"⟩ 1 (by decide)
  simpa using h

/-- C5: a run of `n ≥ 1` consecutive `"Turn On"` serial events, starting
from a state whose last-acted command is not Turn On, with a working
supervisor and notifier: the Runner calls Supervisor start exactly once
and emits `STATUS Connected` exactly once, the repeated events after the
first cause no further action, and the loop never exits. -/
theorem runner_debounce_turn_on (n : Nat) (hn : 1 ≤ n)
    (s : RunnerState) (os : Nat → StepOracles)
    (hprev : s.prev ≠ 255) (hchild : s.handler.child = none)
    (hlp : (os 0).lockPoisoned = false)
    (hdr : (os 0).draws 0 < s.handler.config.files.length)
    (hspawn : (os 0).spawnOk 0 = true) (hwrite : (os 0).writeOk 0 = true) :
    (runRunner os s (List.replicate n "Turn On") 0).events.count .startCall = 1
    ∧ (runRunner os s (List.replicate n "Turn On") 0).events.count
        (.emit "STATUS Connected") = 1
    ∧ (runRunner os s (List.replicate n "Turn On") 0).exitRes = none := by
  obtain ⟨m, rfl⟩ : ∃ m, n = m + 1 := ⟨n - 1, by omega⟩
  have hstep := runnerStep_turnOn_good s (os 0) hprev hchild hlp hdr hspawn hwrite
  simp only [List.replicate_succ, runRunner, hstep]
  rw [runRunner_turnOn_absorbed os _ rfl m 1]
  refine ⟨?_, ?_, ?_⟩ <;> simp [List.count_cons]

/-- Witness for the C5 theorem: three `"Turn On"` events from a fresh
state with everything succeeding. -/
theorem runner_debounce_turn_on_witness :
    (1 : Nat) ≤ 3
    ∧ ((0 : Nat) ≠ 255)
    ∧ (RunnerState.mk 0 ⟨⟨["a.ovpn"], "auth.txt"⟩, none⟩).handler.child = none
    ∧ (runRunner
        (fun _ => ⟨false, fun _ => 0, fun _ => true, fun _ => true, fun _ => true,
                   fun i => .ok i⟩)
        ⟨0, ⟨⟨["a.ovpn"], "auth.txt"⟩, none⟩⟩
        (List.replicate 3 "Turn On") 0).events.count .startCall = 1
    ∧ (runRunner
        (fun _ => ⟨false, fun _ => 0, fun _ => true, fun _ => true, fun _ => true,
                   fun i => .ok i⟩)
        ⟨0, ⟨⟨["a.ovpn"], "auth.txt"⟩, none⟩⟩
        (List.replicate 3 "Turn On") 0).events.count (.emit "STATUS Connected") = 1
    ∧ (runRunner
        (fun _ => ⟨false, fun _ => 0, fun _ => true, fun _ => true, fun _ => true,
                   fun i => .ok i⟩)
        ⟨0, ⟨⟨["a.ovpn"], "auth.txt"⟩, none⟩⟩
        (List.replicate 3 "Turn On") 0).exitRes = none := by
  refine ⟨by decide, by decide, by rfl, ?_⟩
  exact runner_debounce_turn_on 3 (by decide)
    ⟨0, ⟨⟨["a.ovpn"], "auth.txt"⟩, none⟩⟩
    (fun _ => ⟨false, fun _ => 0, fun _ => true, fun _ => true, fun _ => true,
               fun i => .ok i⟩)
    (by decide) (by rfl) (by rfl) (by decide) (by rfl) (by rfl)

/-- C6: a second `start` with no intervening `stop` is rejected without
side effects.  Supervisor level: `Handler::start` with an existing child
returns the `AlreadyExists` error immediately, with the handler unchanged
and no spawn attempted.  Daemon level: after a first `start` spawned the
runner thread, a second `start` only replies "Daemon is already running",
leaves the daemon state unchanged, and the runner count stays 1. -/
theorem start_twice_rejected (h : Handler) (c : Child) (hc : h.child = some c)
    (lp : Bool) (draws : Nat → Nat) (spawnOk : Nat → Bool)
    (s : DaemonState) (hs : s.hasProcess = false) (hcount : s.runnerCount = 0)
    (e1 e2 : Outcome Unit) :
    h.start lp draws spawnOk
      = ⟨.err ⟨.alreadyExists, "OpenVPN is already running"⟩, h, [], 0⟩
    ∧ (daemonStep (daemonStep s e1 "start").1 e2 "start").2
        = [.reply "Daemon is already running"]
    ∧ (daemonStep (daemonStep s e1 "start").1 e2 "start").1 = (daemonStep s e1 "start").1
    ∧ (daemonStep (daemonStep s e1 "start").1 e2 "start").1.runnerCount = 1 := by
  refine ⟨by simp [Handler.start, hc], ?_, ?_, ?_⟩ <;> simp [daemonStep, hs, hcount]

/-- Witness for the C6 theorem at a concrete handler and daemon state. -/
theorem start_twice_rejected_witness :
    (Handler.mk ⟨["a.ovpn"], "auth.txt"⟩
        (some ⟨"openvpn", "a.ovpn", "auth.txt"⟩)).child
      = some ⟨"openvpn", "a.ovpn", "auth.txt"⟩
    ∧ Handler.start ⟨⟨["a.ovpn"], "auth.txt"⟩, some ⟨"openvpn", "a.ovpn", "auth.txt"⟩⟩
        false (fun _ => 0) (fun _ => true)
      = ⟨.err ⟨.alreadyExists, "OpenVPN is already running"⟩,
         ⟨⟨["a.ovpn"], "auth.txt"⟩, some ⟨"openvpn", "a.ovpn", "auth.txt"⟩⟩, [], 0⟩
    ∧ (daemonStep (daemonStep ⟨false, false, 0⟩ (.ok ()) "start").1 (.ok ()) "start").2
        = [.reply "Daemon is already running"]
    ∧ (daemonStep (daemonStep ⟨false, false, 0⟩ (.ok ()) "start").1 (.ok ()) "start").1
        = (daemonStep ⟨false, false, 0⟩ (.ok ()) "start").1
    ∧ (daemonStep (daemonStep ⟨false, false, 0⟩ (.ok ()) "start").1
        (.ok ()) "start").1.runnerCount = 1 := by
  refine ⟨by rfl, ?_⟩
  have h := start_twice_rejected
    ⟨⟨["a.ovpn"], "auth.txt"⟩, some ⟨"openvpn", "a.ovpn", "auth.txt"⟩⟩
    ⟨"openvpn", "a.ovpn", "auth.txt"⟩ (by rfl)
    false (fun _ => 0) (fun _ => true)
    ⟨false, false, 0⟩ (by rfl) (by rfl) (.ok ()) (.ok ())
  exact h

/-- C7: `Handler::stop` with no live child handle is a no-op returning
success (no kill attempt, no sleep, handler unchanged); with a live handle
and a kill that always fails it makes exactly 10 attempts with a 1-second
sleep after each failure and returns the `TerminateExhausted` error; with
a kill that first succeeds at attempt `k < 10` it returns success after
`k + 1` attempts with a 1-second sleep between consecutive attempts, and
the handle is cleared. -/
theorem supervisor_stop_spec (h0 hs : Handler) (c : Child)
    (hnone : h0.child = none) (hsome : hs.child = some c)
    (killN killY : Nat → Bool) (hN : ∀ i, killN i = false)
    (k : Nat) (hk : k < 10) (hYj : ∀ j, j < k → killY j = false) (hY : killY k = true) :
    h0.stop killN = ⟨.ok (), h0, 0, 0⟩
    ∧ hs.stop killN
        = ⟨.err ⟨.other, "Failed to stop OpenVPN"⟩, { hs with child := none }, 10, 10⟩
    ∧ hs.stop killY = ⟨.ok (), { hs with child := none }, k + 1, k⟩ := by
  refine ⟨by simp [Handler.stop, hnone], ?_, ?_⟩
  · simp [Handler.stop, hsome, stopLoop_allFail killN hN 10 0]
  · have := stopLoop_firstOk killY k 10 0 hk
      (fun j hj => by simpa using hYj j hj) (by simpa using hY)
    simp [Handler.stop, hsome, this]

/-- Witness for the C7 theorem, with the first kill success at attempt 2. -/
theorem supervisor_stop_spec_witness :
    (Handler.mk ⟨["a.ovpn"], "auth.txt"⟩ none).child = none
    ∧ (Handler.mk ⟨["a.ovpn"], "auth.txt"⟩
          (some ⟨"openvpn", "a.ovpn", "auth.txt"⟩)).child
        = some ⟨"openvpn", "a.ovpn", "auth.txt"⟩
    ∧ (2 : Nat) < 10
    ∧ Handler.stop ⟨⟨["a.ovpn"], "auth.txt"⟩, none⟩ (fun _ => false)
        = ⟨.ok (), ⟨⟨["a.ovpn"], "auth.txt"⟩, none⟩, 0, 0⟩
    ∧ Handler.stop ⟨⟨["a.ovpn"], "auth.txt"⟩, some ⟨"openvpn", "a.ovpn", "auth.txt"⟩⟩
        (fun _ => false)
      = ⟨.err ⟨.other, "Failed to stop OpenVPN"⟩,
         ⟨⟨["a.ovpn"], "auth.txt"⟩, none⟩, 10, 10⟩
    ∧ Handler.stop ⟨⟨["a.ovpn"], "auth.txt"⟩, some ⟨"openvpn", "a.ovpn", "auth.txt"⟩⟩
        (fun i => 2 ≤ i)
      = ⟨.ok (), ⟨⟨["a.ovpn"], "auth.txt"⟩, none⟩, 3, 2⟩ := by
  refine ⟨by rfl, by rfl, by decide, ?_⟩
  have h := supervisor_stop_spec
    ⟨⟨["a.ovpn"], "auth.txt"⟩, none⟩
    ⟨⟨["a.ovpn"], "auth.txt"⟩, some ⟨"openvpn", "a.ovpn", "auth.txt"⟩⟩
    ⟨"openvpn", "a.ovpn", "auth.txt"⟩ (by rfl) (by rfl)
    (fun _ => false) (fun i => 2 ≤ i) (fun _ => by rfl)
    2 (by decide)
    (fun j hj => by
      have hj01 : j = 0 ∨ j = 1 := by omega
      rcases hj01 with rfl | rfl <;> rfl)
    (by decide)
  exact h

/-- C8: `Handler::start` with no existing handle.  With a spawn that always
fails, it makes exactly 10 attempts, drawing a FRESH random profile on
every attempt, sleeping 1 second after each failure, and returns the
`SpawnExhausted` error with the handler unchanged.  With a spawn that
succeeds at once, the invocation uses the profile at the index drawn by
this call, and a later start (after a stop) uses the index drawn by that
later call's own stream — nothing is cached across starts. -/
theorem supervisor_start_spec (h : Handler) (hchild : h.child = none)
    (draws dB : Nat → Nat) (hdr : ∀ i, draws i < h.config.files.length)
    (hdB : dB 0 < h.config.files.length)
    (spawnN spawnY : Nat → Bool) (hsN : ∀ i, spawnN i = false) (hsY : spawnY 0 = true)
    (killOk : Nat → Bool) :
    h.start false draws spawnN
      = ⟨.err ⟨.other, "Failed to start OpenVPN"⟩, h,
         (List.range 10).map
           (fun j => ⟨"openvpn", h.config.files.getD (draws j) "", h.config.auth⟩), 10⟩
    ∧ h.start false draws spawnY
      = ⟨.ok (),
         { h with child := some ⟨"openvpn", h.config.files.getD (draws 0) "",
                                 h.config.auth⟩ },
         [⟨"openvpn", h.config.files.getD (draws 0) "", h.config.auth⟩], 0⟩
    ∧ ((h.start false draws spawnY).handler.stop killOk).handler.start false dB spawnY
      = ⟨.ok (),
         { h with child := some ⟨"openvpn", h.config.files.getD (dB 0) "",
                                 h.config.auth⟩ },
         [⟨"openvpn", h.config.files.getD (dB 0) "", h.config.auth⟩], 0⟩ := by
  have h1 := start_firstOk h draws spawnY hchild (hdr 0) hsY
  refine ⟨?_, h1, ?_⟩
  · simp [Handler.start, hchild, startLoop_allFail h.config draws spawnN hdr hsN 10 0]
  · rw [h1]
    have h2 : (Handler.stop
        { h with child := some ⟨"openvpn", h.config.files.getD (draws 0) "",
                                h.config.auth⟩ } killOk).handler
        = { h with child := none } := by
      simp [Handler.stop]
    rw [h2]
    have h3 := start_firstOk { h with child := none } dB spawnY rfl hdB hsY
    simpa using h3

/-- Witness for the C8 theorem: two profiles, first start draws index 0,
the later start draws index 1. -/
theorem supervisor_start_spec_witness :
    (Handler.mk ⟨["a.ovpn", "b.ovpn"], "auth.txt"⟩ none).child = none
    ∧ ((1 : Nat) < 2)
    ∧ Handler.start ⟨⟨["a.ovpn", "b.ovpn"], "auth.txt"⟩, none⟩ false (fun _ => 0)
        (fun _ => false)
      = ⟨.err ⟨.other, "Failed to start OpenVPN"⟩,
         ⟨⟨["a.ovpn", "b.ovpn"], "auth.txt"⟩, none⟩,
         (List.range 10).map (fun _ => ⟨"openvpn", "a.ovpn", "auth.txt"⟩), 10⟩
    ∧ Handler.start ⟨⟨["a.ovpn", "b.ovpn"], "auth.txt"⟩, none⟩ false (fun _ => 0)
        (fun _ => true)
      = ⟨.ok (), ⟨⟨["a.ovpn", "b.ovpn"], "auth.txt"⟩,
                  some ⟨"openvpn", "a.ovpn", "auth.txt"⟩⟩,
         [⟨"openvpn", "a.ovpn", "auth.txt"⟩], 0⟩
    ∧ ((Handler.start ⟨⟨["a.ovpn", "b.ovpn"], "auth.txt"⟩, none⟩ false (fun _ => 0)
          (fun _ => true)).handler.stop (fun _ => true)).handler.start false
        (fun _ => 1) (fun _ => true)
      = ⟨.ok (), ⟨⟨["a.ovpn", "b.ovpn"], "auth.txt"⟩,
                  some ⟨"openvpn", "b.ovpn", "auth.txt"⟩⟩,
         [⟨"openvpn", "b.ovpn", "auth.txt"⟩], 0⟩ := by
  refine ⟨by rfl, by decide, ?_⟩
  have h := supervisor_start_spec ⟨⟨["a.ovpn", "b.ovpn"], "auth.txt"⟩, none⟩ (by rfl)
    (fun _ => 0) (fun _ => 1) (fun _ => (by decide : (0 : Nat) < 2)) (by decide)
    (fun _ => false) (fun _ => true) (fun _ => by rfl) (by rfl) (fun _ => true)
  simpa using h

/-- C9: the Log Writer's freshness check.  A missing log file requires
rotation.  A present header `LOG CREATED AT: <ts>` with a well-formed
timestamp requires rotation exactly when the elapsed time since `<ts>`
exceeds 24 hours — in particular a header exactly 24h + 1s old rotates and
one 23h 59m old does not.  A first line without the header tag, or whose
timestamp does not parse, is a hard error, not a silent rotation. -/
theorem rotate_needed_spec (now : Nat) (s sBad sMal : String) (t : DateTime)
    (h1 : parseTimestamp s = some t)
    (h2 : dropLogHeader sBad = none)
    (h3 : parseTimestamp sMal = none) :
    rotateNeeded .fileMissing now = .ok true
    ∧ (rotateNeeded (.line (logHeaderTag ++ s)) now = .ok true
        ↔ (toSecs t : Int) + 86400 < now)
    ∧ rotateNeeded (.line sBad) now = .error .missingHeaderError
    ∧ rotateNeeded (.line (logHeaderTag ++ sMal)) now = .error .timeParseError
    ∧ rotateNeeded (.line (logHeaderTag ++ s)) (toSecs t + 86401) = .ok true
    ∧ rotateNeeded (.line (logHeaderTag ++ s)) (toSecs t + 86340) = .ok false := by
  refine ⟨rfl, ?_, ?_, ?_, ?_, ?_⟩
  · rw [rotateNeeded_parsed s t now h1]
    simp only [Except.ok.injEq, decide_eq_true_eq]
    constructor <;> intro <;> omega
  · simp [rotateNeeded, h2]
  · simp [rotateNeeded, dropLogHeader_append, h3]
  · rw [rotateNeeded_parsed s t _ h1]
    simp only [Except.ok.injEq, decide_eq_true_eq]
    push_cast
    omega
  · rw [rotateNeeded_parsed s t _ h1]
    simp only [Except.ok.injEq]
    rw [decide_eq_false_iff_not]
    push_cast
    omega

/-- Witness for the C9 theorem on a concrete header written at
2024-05-10 12:00:00 and checked one second after the 24-hour mark. -/
theorem rotate_needed_spec_witness :
    parseTimestamp "2024-05-10 12:00:00" = some ⟨2024, 5, 10, 12, 0, 0⟩
    ∧ dropLogHeader "CREATED: 2024-05-10 12:00:00" = none
    ∧ parseTimestamp "2024-13-01 00:00:00" = none
    ∧ rotateNeeded .fileMissing (toSecs ⟨2024, 5, 10, 12, 0, 0⟩ + 86401) = .ok true
    ∧ (rotateNeeded (.line (logHeaderTag ++ "2024-05-10 12:00:00"))
          (toSecs ⟨2024, 5, 10, 12, 0, 0⟩ + 86401) = .ok true
        ↔ (toSecs (⟨2024, 5, 10, 12, 0, 0⟩ : DateTime) : Int) + 86400
            < (toSecs (⟨2024, 5, 10, 12, 0, 0⟩ : DateTime) + 86401 : Nat))
    ∧ rotateNeeded (.line "CREATED: 2024-05-10 12:00:00")
        (toSecs ⟨2024, 5, 10, 12, 0, 0⟩ + 86401) = .error .missingHeaderError
    ∧ rotateNeeded (.line (logHeaderTag ++ "2024-13-01 00:00:00"))
        (toSecs ⟨2024, 5, 10, 12, 0, 0⟩ + 86401) = .error .timeParseError
    ∧ rotateNeeded (.line (logHeaderTag ++ "2024-05-10 12:00:00"))
        (toSecs ⟨2024, 5, 10, 12, 0, 0⟩ + 86401) = .ok true
    ∧ rotateNeeded (.line (logHeaderTag ++ "2024-05-10 12:00:00"))
        (toSecs ⟨2024, 5, 10, 12, 0, 0⟩ + 86340) = .ok false := by
  refine ⟨by decide, by decide, by decide, ?_⟩
  have h := rotate_needed_spec (toSecs ⟨2024, 5, 10, 12, 0, 0⟩ + 86401)
    "2024-05-10 12:00:00" "CREATED: 2024-05-10 12:00:00" "2024-13-01 00:00:00"
    ⟨2024, 5, 10, 12, 0, 0⟩ (by decide) (by decide) (by decide)
  exact h

/-- C10: `Handler::stop` takes the child handle before the first kill
attempt, so the handle is `None` after every `stop` — for any handler and
kill behaviour, and in particular when all 10 kill attempts fail and the
`TerminateExhausted` error is returned.  A `start` issued on the handler
left by a failed stop is therefore not rejected: any error it returns has
kind `Other` (never `AlreadyExists`), and it does attempt a spawn, whose
command uses a freshly drawn profile. -/
theorem stop_clears_handle (h h2 : Handler) (c : Child) (hs : h.child = some c)
    (killOk killN : Nat → Bool) (hN : ∀ i, killN i = false)
    (draws : Nat → Nat) (hdr : draws 0 < h.config.files.length)
    (spawnOk : Nat → Bool) (e : IOErr) :
    (h2.stop killOk).handler.child = none
    ∧ (h.stop killN).res = .err ⟨.other, "Failed to stop OpenVPN"⟩
    ∧ (h.stop killN).handler.child = none
    ∧ (((h.stop killN).handler.start false draws spawnOk).res = .err e →
        e.kind = .other)
    ∧ ((h.stop killN).handler.start false draws spawnOk).spawns.head?
        = some ⟨"openvpn", h.config.files.getD (draws 0) "", h.config.auth⟩ := by
  have hstop : (h.stop killN).handler = { h with child := none } := by
    simp [Handler.stop, hs]
  refine ⟨?_, ?_, ?_, ?_, ?_⟩
  · rcases hc : h2.child with _ | c2 <;> simp [Handler.stop, hc]
  · simp [Handler.stop, hs, stopLoop_allFail killN hN 10 0]
  · rw [hstop]
  · intro he
    rw [hstop] at he
    exact start_err_kind { h with child := none } false draws spawnOk e rfl he
  · rw [hstop, start_spawns { h with child := none } false draws spawnOk rfl]
    exact startLoop_head h.config draws spawnOk 0 9 hdr

/-- Witness for the C10 theorem: a failed stop still clears the handle and
the next start attempts a spawn. -/
theorem stop_clears_handle_witness :
    (Handler.mk ⟨["a.ovpn"], "auth.txt"⟩
        (some ⟨"openvpn", "a.ovpn", "auth.txt"⟩)).child
      = some ⟨"openvpn", "a.ovpn", "auth.txt"⟩
    ∧ ((0 : Nat) < 1)
    ∧ (Handler.stop ⟨⟨["a.ovpn"], "auth.txt"⟩, none⟩ (fun _ => true)).handler.child
        = none
    ∧ (Handler.stop ⟨⟨["a.ovpn"], "auth.txt"⟩, some ⟨"openvpn", "a.ovpn", "auth.txt"⟩⟩
        (fun _ => false)).res = .err ⟨.other, "Failed to stop OpenVPN"⟩
    ∧ (Handler.stop ⟨⟨["a.ovpn"], "auth.txt"⟩, some ⟨"openvpn", "a.ovpn", "auth.txt"⟩⟩
        (fun _ => false)).handler.child = none
    ∧ (((Handler.stop ⟨⟨["a.ovpn"], "auth.txt"⟩,
            some ⟨"openvpn", "a.ovpn", "auth.txt"⟩⟩
          (fun _ => false)).handler.start false (fun _ => 0) (fun _ => false)).res
        = .err ⟨.other, "Failed to start OpenVPN"⟩ →
        (IOErr.mk .other "Failed to start OpenVPN").kind = .other)
    ∧ ((Handler.stop ⟨⟨["a.ovpn"], "auth.txt"⟩, some ⟨"openvpn", "a.ovpn", "auth.txt"⟩⟩
          (fun _ => false)).handler.start false (fun _ => 0)
            (fun _ => false)).spawns.head?
        = some ⟨"openvpn", "a.ovpn", "auth.txt"⟩ := by
  refine ⟨by rfl, by decide, ?_⟩
  have h := stop_clears_handle
    ⟨⟨["a.ovpn"], "auth.txt"⟩, some ⟨"openvpn", "a.ovpn", "auth.txt"⟩⟩
    ⟨⟨["a.ovpn"], "auth.txt"⟩, none⟩
    ⟨"openvpn", "a.ovpn", "auth.txt"⟩ (by rfl)
    (fun _ => true) (fun _ => false) (fun _ => by rfl)
    (fun _ => 0) (by decide) (fun _ => false)
    ⟨.other, "Failed to start OpenVPN"⟩
  simpa using h

end VpnHandler
